import Mathlib

/-!
Shallow embedding of the WorkPlanner application core (src/app.js):
the in-memory domain store (notes, folders, tags, tasks, settings),
its mutation operations, the data import/export pair, and the pomodoro
timer state machine.  Persistence (localStorage writes) is a synchronous
write-through mirror of the in-memory collections, so the in-memory state
is the state; DOM rendering calls are ignored.  JavaScript millisecond
timestamps and ISO-8601 date strings are both modelled as `Nat` instants
(ISO strings of this clock compare exactly as the instants do).  JS string
`length` is modelled by `String.length`.
-/

/-- A note record, as built by `createNote` (src/app.js:100-111). -/
structure Note where
  id : String
  title : String
  content : String
  tags : List String
  folder : String
  starred : Bool
  createdAt : Nat
  updatedAt : Nat
  wordCount : Nat
deriving DecidableEq

/-- A folder record (src/app.js:46-51, 209-214). -/
structure Folder where
  id : String
  name : String
  color : String
  count : Nat
deriving DecidableEq

/-- A tag record (src/app.js:182-185). -/
structure Tag where
  name : String
  count : Nat
deriving DecidableEq

/-- A kanban task record (src/app.js:223-232).  (`Task` itself is taken
by the Lean core library, hence the `Item` suffix.) -/
structure TaskItem where
  id : String
  title : String
  description : String
  column : String
  createdAt : Nat
  dueDate : Option Nat
  priority : String
  tags : List String
deriving DecidableEq

/-- Editor preferences inside settings (src/app.js:59-63).  The source
default line height is 1.6; it is stored here scaled by ten to stay in
`Nat` (the core never computes with it). -/
structure EditorPrefs where
  fontSize : Nat
  lineHeightTenths : Nat
  wordWrap : Bool
deriving DecidableEq

/-- Pomodoro durations inside settings (src/app.js:64-67), in minutes. -/
structure PomodoroPrefs where
  workDuration : Nat
  breakDuration : Nat
deriving DecidableEq

/-- The settings record (src/app.js:57-69).  `pomodoro` is optional
because the source reads it with the optional-chaining operator
(`settings.pomodoro?.workDuration`), tolerating its absence. -/
structure Settings where
  theme : String
  editor : EditorPrefs
  pomodoro : Option PomodoroPrefs
  autoSave : Bool
deriving DecidableEq

/-- A user-facing message emitted via `showNotification` (src/app.js:1335). -/
structure Notif where
  message : String
  kind : String
deriving DecidableEq

/-- The whole application state (the `WorkPlannerApp` instance fields,
src/app.js:7-21).  `intervals` counts the armed `setInterval` tick
schedules (the `pomodoroTimer` handle: armed by `startPomodoro`,
cleared by `pausePomodoro`); `notifications` records the messages shown
in the notification area. -/
structure App where
  notes : List Note
  folders : List Folder
  tags : List Tag
  tasks : List TaskItem
  settings : Settings
  pomodoroSeconds : Int
  pomodoroRunning : Bool
  pomodoroMode : String
  intervals : Nat
  notifications : List Notif
deriving DecidableEq

/-! ### Note identifiers

`createNote` sets `id: Date.now().toString()` — the decimal rendering of
the millisecond timestamp.  `decDigits`/`decimalRepr` translate
JavaScript's `Number.prototype.toString` for a nonnegative integer. -/

/-- The decimal digit character for a digit value (char code 48 + d). -/
def decDigitChar (d : Nat) : Char := Char.ofNat (48 + d)

/-- Decimal digit characters of `n`, most significant first. -/
def decDigits (n : Nat) : List Char :=
  if n < 10 then [decDigitChar n]
  else decDigits (n / 10) ++ [decDigitChar (n % 10)]
termination_by n
decreasing_by
  exact Nat.div_lt_self (by omega) (by omega)

/-- Translation of `Date.now().toString()`: the decimal string of a timestamp. -/
def decimalRepr (n : Nat) : String := String.mk (decDigits n)

/-! ### Domain store operations -/

/-- Source `updateFolderCounts` (src/app.js:201-206): every folder's `count`
becomes the number of notes whose `folder` field equals its id. -/
def updateFolderCounts (a : App) : App :=
  { a with folders := a.folders.map fun f =>
      { f with count := (a.notes.filter fun n => n.folder = f.id).length } }

/-- Source `saveNotes` (src/app.js:77-81): persists the notes (write-through,
no in-memory effect), refreshes the stats display (view-layer), and
recomputes the folder counts. -/
def saveNotes (a : App) : App := updateFolderCounts a

/-- Increment the `count` of the first tag named `tag` (the source finds
the first index with `findIndex` and increments there, src/app.js:187-188). -/
def incFirstTag (tag : String) : List Tag → List Tag
  | [] => []
  | t :: ts => if t.name = tag then { t with count := t.count + 1 } :: ts
               else t :: incFirstTag tag ts

/-- Source `updateTags` (src/app.js:179-192): for each tag name, push a fresh
record with count 1 if unseen, else increment the existing count. -/
def updateTags (newTags : List String) (a : App) : App :=
  { a with tags := newTags.foldl (fun ts tag =>
      if ts.any fun t => t.name = tag then incFirstTag tag ts
      else ts ++ [{ name := tag, count := 1 }]) a.tags }

/-- Source `createNote` (src/app.js:100-120).  `now` is the `Date.now()` clock
reading at the call. -/
def createNote (now : Nat) (title content : String) (tags : List String)
    (folder : String) (a : App) : Note × App :=
  let note : Note :=
    { id := decimalRepr now, title := title, content := content, tags := tags
      folder := folder, starred := false, createdAt := now, updatedAt := now
      wordCount := content.length }
  let a1 := saveNotes { a with notes := note :: a.notes }
  (note, updateTags tags a1)

/-- A partial-update payload for `updateNote`: `some` models a key
present in the `updates` object, `none` an absent key. -/
structure NoteUpdate where
  title : Option String := none
  content : Option String := none
  tags : Option (List String) := none
  folder : Option String := none
  starred : Option Bool := none
deriving DecidableEq

/-- The merged note built by `updateNote` (src/app.js:125-130): spread
of the old note and the updates, then `updatedAt` refreshed to now and
`wordCount` recomputed — from `updates.content` if that value is truthy
(a non-empty string), else from the existing note's `content`. -/
def mergeNote (n : Note) (u : NoteUpdate) (now : Nat) : Note :=
  { id := n.id
    title := u.title.getD n.title
    content := u.content.getD n.content
    tags := u.tags.getD n.tags
    folder := u.folder.getD n.folder
    starred := u.starred.getD n.starred
    createdAt := n.createdAt
    updatedAt := now
    wordCount :=
      match u.content with
      | some c => if c = "" then n.content.length else c.length
      | none => n.content.length }

/-- Replace the first note whose id is `id` by `f` of it (the source
replaces at the first `findIndex` match). -/
def updateFirstNote (id : String) (f : Note → Note) : List Note → List Note
  | [] => []
  | n :: ns => if n.id = id then f n :: ns else n :: updateFirstNote id f ns

/-- Remove the first note whose id is `id` (`splice(index, 1)` at the
first `findIndex` match). -/
def removeFirstNote (id : String) : List Note → List Note
  | [] => []
  | n :: ns => if n.id = id then ns else n :: removeFirstNote id ns

/-- Source `updateNote` (src/app.js:122-138): silent no-op when the id is
absent; otherwise merge, save (recomputing folder counts), and feed the
new tag list through `updateTags` when the payload carried tags. -/
def updateNote (now : Nat) (id : String) (u : NoteUpdate) (a : App) : App :=
  if a.notes.any fun n => n.id = id then
    let a1 := saveNotes { a with notes := updateFirstNote id (fun n => mergeNote n u now) a.notes }
    match u.tags with
    | some ts => updateTags ts a1
    | none => a1
  else a

/-- Source `deleteNote` (src/app.js:140-146): remove by id if present, save;
silent no-op otherwise. -/
def deleteNote (id : String) (a : App) : App :=
  if a.notes.any fun n => n.id = id then
    saveNotes { a with notes := removeFirstNote id a.notes }
  else a

/-- Single pass of the JS whitespace-run replacement: `inRun` records
whether the previous character was whitespace (so the current run has
already produced its hyphen). -/
def hyphenateRunsAux (inRun : Bool) : List Char → List Char
  | [] => []
  | c :: cs =>
    if c.isWhitespace then
      if inRun then hyphenateRunsAux true cs
      else '-' :: hyphenateRunsAux true cs
    else c :: hyphenateRunsAux false cs

/-- The JS whitespace-run replacement `replace(/\s+/g, '-')`: every
maximal run of whitespace characters becomes a single hyphen. -/
def hyphenateRuns (l : List Char) : List Char := hyphenateRunsAux false l

/-- Translation of `name.toLowerCase().replace(/\s+/g, '-')` (src/app.js:210):
lower-case every character, then replace each whitespace run by `-`. -/
def slugify (name : String) : String :=
  String.mk (hyphenateRuns (name.data.map Char.toLower))

/-- Source `createFolder` (src/app.js:208-219): slugified id, count 0, record
pushed onto the folder list with no uniqueness check, persisted. -/
def createFolder (name color : String) (a : App) : Folder × App :=
  let folder : Folder := { id := slugify name, name := name, color := color, count := 0 }
  (folder, { a with folders := a.folders ++ [folder] })

/-- The JS sort comparator `(a, b) => b.count - a.count`: `a` may stay
before `b` exactly when the comparator is nonpositive. -/
def tagLe (a b : Tag) : Bool := decide (b.count ≤ a.count)

/-- Source `getPopularTags` (src/app.js:194-198): `Array.prototype.sort`
sorts the store's tags array IN PLACE (stable, by descending count),
then `slice(0, limit)` copies the prefix.  Returns the truncated list
together with the mutated store. -/
def getPopularTags (limit : Nat) (a : App) : List Tag × App :=
  let sorted := a.tags.mergeSort tagLe
  (sorted.take limit, { a with tags := sorted })

/-- Source `showNotification` (src/app.js:1335-1372): appends a message to the
notification area. -/
def showNotification (message kind : String) (a : App) : App :=
  { a with notifications := a.notifications ++ [{ message := message, kind := kind }] }

/-! ### Import / export -/

/-- The JSON payload shape shared by `exportData` and `importData`.
`some` models a key present with a truthy value (the source guards each
key with `if (data.notes)` etc.; the collections it ever writes are
arrays and objects, which are truthy in JS), `none` an absent key. -/
structure DataPayload where
  notes : Option (List Note) := none
  folders : Option (List Folder) := none
  tasks : Option (List TaskItem) := none
  settings : Option Settings := none
  tags : Option (List Tag) := none
  exportDate : Option Nat := none
deriving DecidableEq

/-- Source `exportData` (src/app.js:1245-1276): type `all` exports the five
collections plus the export date; type `notes` only the notes. -/
def exportData (typ : String) (now : Nat) (a : App) : DataPayload :=
  if typ = "all" then
    { notes := some a.notes, folders := some a.folders, tasks := some a.tasks
      settings := some a.settings, tags := some a.tags, exportDate := some now }
  else if typ = "notes" then
    { notes := some a.notes, exportDate := some now }
  else {}

/-- Source `importData` (src/app.js:1278-1332).  The argument is the result of
`JSON.parse` on the chosen file: `none` means the parse threw, in which
case the catch branch shows an error and nothing was mutated.  On a
parsed object, each truthy key wholesale-replaces its collection and is
persisted — replacing notes goes through `saveNotes`, which recomputes
folder counts; replacing folders installs the payload records verbatim.
Ends with a success message. -/
def importData (payload : Option DataPayload) (a : App) : App :=
  match payload with
  | none => showNotification "导入失败：文件格式错误" "error" a
  | some d =>
    let a1 := match d.notes with
      | some ns => saveNotes { a with notes := ns }
      | none => a
    let a2 := match d.folders with
      | some fs => { a1 with folders := fs }
      | none => a1
    let a3 := match d.tasks with
      | some ts => { a2 with tasks := ts }
      | none => a2
    let a4 := match d.settings with
      | some st => { a3 with settings := st }
      | none => a3
    let a5 := match d.tags with
      | some tg => { a4 with tags := tg }
      | none => a4
    showNotification "数据导入成功" "success" a5

/-! ### Pomodoro timer state machine -/

/-- Translation of `this.settings.pomodoro?.workDuration * 60 || 25 * 60`: the product
when it is a truthy number, else the 25-minute default (an absent
`pomodoro` gives `NaN`, a zero duration gives `0`; both are falsy). -/
def workSecondsOf (s : Settings) : Nat :=
  match s.pomodoro with
  | some p => if p.workDuration * 60 = 0 then 25 * 60 else p.workDuration * 60
  | none => 25 * 60

/-- Translation of `this.settings.pomodoro?.breakDuration * 60 || 5 * 60`. -/
def breakSecondsOf (s : Settings) : Nat :=
  match s.pomodoro with
  | some p => if p.breakDuration * 60 = 0 then 5 * 60 else p.breakDuration * 60
  | none => 5 * 60

/-- Source `startPomodoro` (src/app.js:265-278): no-op when already running;
otherwise sets running, forces the mode to `work`, and arms the
one-second interval. -/
def startPomodoro (a : App) : App :=
  if a.pomodoroRunning then a
  else { a with pomodoroRunning := true, pomodoroMode := "work", intervals := a.intervals + 1 }

/-- Source `pausePomodoro` (src/app.js:280-285): no-op when not running;
otherwise clears running and cancels the armed interval. -/
def pausePomodoro (a : App) : App :=
  if a.pomodoroRunning then
    { a with pomodoroRunning := false, intervals := a.intervals - 1 }
  else a

/-- Source `pomodoroFinished` (src/app.js:294-308): pause, swap the mode and
load the new mode's configured duration, notify, then restart. -/
def pomodoroFinished (a : App) : App :=
  let a1 := pausePomodoro a
  let a2 :=
    if a1.pomodoroMode = "work" then
      showNotification "工作时间结束！该休息了。" "success"
        { a1 with pomodoroMode := "break"
                  pomodoroSeconds := (breakSecondsOf a1.settings : Int) }
    else
      showNotification "休息时间结束！开始工作吧。" "info"
        { a1 with pomodoroMode := "work"
                  pomodoroSeconds := (workSecondsOf a1.settings : Int) }
  startPomodoro a2

/-- The body of the armed interval callback (src/app.js:270-277):
decrement the remaining seconds, then fire completion at zero or below. -/
def pomodoroTick (a : App) : App :=
  let a1 := { a with pomodoroSeconds := a.pomodoroSeconds - 1 }
  if a1.pomodoroSeconds ≤ 0 then pomodoroFinished a1 else a1

/-- Source `resetPomodoro` (src/app.js:287-292): pause, force `work` mode, and
reload the configured work duration. -/
def resetPomodoro (a : App) : App :=
  let a1 := pausePomodoro a
  { a1 with pomodoroMode := "work"
            pomodoroSeconds := (workSecondsOf a1.settings : Int) }

/-! ### First-run state -/

/-- The settings seeded on first load (src/app.js:57-69). -/
def defaultSettings : Settings :=
  { theme := "light"
    editor := { fontSize := 16, lineHeightTenths := 16, wordWrap := true }
    pomodoro := some { workDuration := 25, breakDuration := 5 }
    autoSave := true }

/-- The four built-in folders seeded on first load (src/app.js:46-51). -/
def defaultFolders : List Folder :=
  [ { id := "work", name := "工作", color := "#3b82f6", count := 0 }
  , { id := "study", name := "学习", color := "#10b981", count := 0 }
  , { id := "ideas", name := "想法", color := "#f59e0b", count := 0 }
  , { id := "goals", name := "目标", color := "#ef4444", count := 0 } ]

/-- The application state after a first run of `init` with empty
storage: seeded folders and settings, folder counts recomputed (all
zero), and `setupPomodoro` loading the 25-minute work duration. -/
def freshApp : App :=
  { notes := [], folders := defaultFolders, tags := [], tasks := []
    settings := defaultSettings
    pomodoroSeconds := 25 * 60, pomodoroRunning := false
    pomodoroMode := "work", intervals := 0, notifications := [] }

/-! ### Helper lemmas -/

/-- Running the tick callback `k` times on a state with `k + 1` seconds
remaining counts straight down to one second, touching nothing else. -/
theorem pomodoroTick_countdown : ∀ (k : Nat) (a : App),
    a.pomodoroSeconds = (k : Int) + 1 →
    pomodoroTick^[k] a = { a with pomodoroSeconds := 1 }
  | 0, a, h => by
    cases a
    simp_all
  | k + 1, a, h => by
    have hstep : pomodoroTick a = { a with pomodoroSeconds := (k : Int) + 1 } := by
      unfold pomodoroTick
      have hc : ¬ ({ a with pomodoroSeconds := a.pomodoroSeconds - 1 } : App).pomodoroSeconds ≤ 0 := by
        simp only [h]
        push_cast
        omega
      rw [if_neg hc]
      cases a
      simp_all
    rw [Function.iterate_succ_apply, hstep,
      pomodoroTick_countdown k _ (by simp)]

/-- Claim C1 (evidence for the code bug): on the fresh default app
(25-minute work duration), starting the timer and letting 1500 ticks
elapse without pausing leaves the machine RUNNING IN WORK MODE with the
break duration (300 s) loaded — not in break mode as the specification
states — because `startPomodoro` unconditionally forces
`pomodoroMode := "work"` when `pomodoroFinished` restarts the tick
sequence.  Exactly one notification (the work-ended message) was
emitted along the way. -/
theorem timer_1500_ticks_restart_forces_work_mode :
    (pomodoroTick^[1500] (startPomodoro freshApp)).pomodoroMode = "work" ∧
    (pomodoroTick^[1500] (startPomodoro freshApp)).pomodoroRunning = true ∧
    (pomodoroTick^[1500] (startPomodoro freshApp)).pomodoroSeconds = 300 ∧
    (pomodoroTick^[1500] (startPomodoro freshApp)).notifications =
      [{ message := "工作时间结束！该休息了。", kind := "success" }] := by
  have h1 : pomodoroTick^[1499] (startPomodoro freshApp) =
      { startPomodoro freshApp with pomodoroSeconds := 1 } :=
    pomodoroTick_countdown 1499 _ (by decide)
  refine ⟨?_, ?_, ?_, ?_⟩ <;>
  · rw [show (1500 : Nat) = 1499 + 1 from rfl, Function.iterate_succ_apply', h1]
    decide

/-- Claim C7 (amended): `resetPomodoro`, from any timer state, pauses
the timer, forces `work` mode, and sets the remaining seconds to the
configured work duration — provided the settings carry a pomodoro
config whose work duration is nonzero (a missing config or a zero
duration falls back to the 25-minute default instead). -/
theorem resetPomodoro_behavior (a : App) (p : PomodoroPrefs)
    (hp : a.settings.pomodoro = some p) (hw : p.workDuration ≠ 0) :
    (resetPomodoro a).pomodoroRunning = false ∧
    (resetPomodoro a).pomodoroMode = "work" ∧
    (resetPomodoro a).pomodoroSeconds = (p.workDuration : Int) * 60 := by
  have hpause : (pausePomodoro a).pomodoroRunning = false ∧
      (pausePomodoro a).settings = a.settings := by
    unfold pausePomodoro
    split <;> simp_all
  refine ⟨?_, rfl, ?_⟩
  · simpa [resetPomodoro] using hpause.1
  · simp [resetPomodoro, workSecondsOf, hpause.2, hp, Nat.mul_eq_zero, hw]

/-- A timer state used to refute claim C7 as stated: a configured work
duration of zero minutes. -/
def resetCexApp : App :=
  { freshApp with
      settings := { defaultSettings with
        pomodoro := some { workDuration := 0, breakDuration := 5 } }
      pomodoroSeconds := 77, pomodoroMode := "break"
      pomodoroRunning := true, intervals := 1 }

/-- Claim C7 counterexample: with a configured work duration of 0
minutes (0 seconds), `resetPomodoro` sets the remaining seconds to the
1500-second fallback, not to the configured duration. -/
theorem resetPomodoro_zero_work_duration_cex :
    resetCexApp.settings.pomodoro = some { workDuration := 0, breakDuration := 5 } ∧
    (resetPomodoro resetCexApp).pomodoroSeconds = 1500 ∧
    (resetPomodoro resetCexApp).pomodoroSeconds ≠ ((0 : Int) * 60) := by
  refine ⟨rfl, rfl, by decide⟩

/-- Witness for C7's theorem at a concrete state. -/
theorem resetPomodoro_behavior_witness :
    (resetPomodoro freshApp).pomodoroRunning = false ∧
    (resetPomodoro freshApp).pomodoroMode = "work" ∧
    (resetPomodoro freshApp).pomodoroSeconds = ((25 : Nat) : Int) * 60 :=
  resetPomodoro_behavior freshApp { workDuration := 25, breakDuration := 5 } rfl (by decide)

/-- Claim C9: starting while already running is a no-op (the state,
including the count of armed tick schedules, is unchanged), and pausing
while not running is a no-op (remaining seconds preserved). -/
theorem start_pause_idempotent_noops (a : App) :
    (a.pomodoroRunning = true → startPomodoro a = a) ∧
    (a.pomodoroRunning = false → pausePomodoro a = a) := by
  constructor <;> intro h <;> simp [startPomodoro, pausePomodoro, h]

/-- A running timer state for the C9 witness. -/
def runningApp : App :=
  { freshApp with pomodoroRunning := true, intervals := 1 }

/-- Witness for C9's theorem at concrete states. -/
theorem start_pause_idempotent_noops_witness :
    startPomodoro runningApp = runningApp ∧ pausePomodoro freshApp = freshApp :=
  ⟨(start_pause_idempotent_noops runningApp).1 rfl,
   (start_pause_idempotent_noops freshApp).2 rfl⟩

/-- One step of reading a decimal digit string back as a number. -/
def decStep (acc : Nat) (c : Char) : Nat := 10 * acc + (c.toNat - 48)

/-- The digit character of `d < 10` has char code `48 + d`. -/
theorem decDigitChar_toNat (d : Nat) (h : d < 10) : (decDigitChar d).toNat = 48 + d := by
  interval_cases d <;> decide

/-- Folding `decStep` over the decimal digits of `n` recovers `n`
(with the accumulator shifted past them). -/
theorem decDigits_foldl (n : Nat) : ∀ acc : Nat,
    (decDigits n).foldl decStep acc = acc * 10 ^ (decDigits n).length + n := by
  induction n using Nat.strong_induction_on with
  | _ n ih =>
    intro acc
    rw [decDigits]
    split
    · next h =>
      simp [decStep, decDigitChar_toNat n h]
      omega
    · next h =>
      have hd : n / 10 < n := Nat.div_lt_self (by omega) (by omega)
      rw [List.foldl_append, ih (n / 10) hd acc]
      simp [decStep, decDigitChar_toNat (n % 10) (Nat.mod_lt _ (by omega)),
        List.length_append, pow_succ]
      have hmod := Nat.div_add_mod n 10
      ring_nf
      omega

/-- Decimal string rendering is injective: distinct numbers have
distinct renderings. -/
theorem decimalRepr_inj {m n : Nat} (h : decimalRepr m = decimalRepr n) : m = n := by
  have hdig : decDigits m = decDigits n := by
    simpa [decimalRepr] using congrArg String.data h
  have hm := decDigits_foldl m 0
  have hn := decDigits_foldl n 0
  rw [hdig] at hm
  simp at hm hn
  omega

/-- Claim C4 (amended): two `createNote` calls made at DISTINCT clock
timestamps produce notes with distinct ids (the id is the decimal
rendering of the millisecond timestamp, which is injective); two calls
within the same millisecond collide — see the counterexample. -/
theorem createNote_ids_distinct_at_distinct_times
    (t₁ t₂ : Nat) (ti₁ ti₂ co₁ co₂ fo₁ fo₂ : String)
    (tg₁ tg₂ : List String) (a₁ a₂ : App) (hne : t₁ ≠ t₂) :
    ((createNote t₁ ti₁ co₁ tg₁ fo₁ a₁).1).id ≠
      ((createNote t₂ ti₂ co₂ tg₂ fo₂ a₂).1).id := by
  intro h
  exact hne (decimalRepr_inj h)

/-- Witness for C4's amended theorem at concrete timestamps. -/
theorem createNote_ids_distinct_witness :
    ((createNote 1 "a" "" [] "" freshApp).1).id ≠
      ((createNote 2 "b" "" [] "" freshApp).1).id :=
  createNote_ids_distinct_at_distinct_times 1 2 "a" "b" "" "" "" "" [] []
    freshApp freshApp (by decide)

/-- The store after a first note created at clock reading 42. -/
def idCollisionApp : App := (createNote 42 "第一" "" [] "" freshApp).2

/-- Claim C4 counterexample: two distinct `createNote` calls within the
same millisecond (both at `Date.now() = 42`) produce two different note
records (their titles differ, and both sit in the store) carrying THE
SAME id — refuting the claim that ids are unique across all notes ever
created. -/
theorem createNote_same_millisecond_id_collision :
    ((createNote 42 "第一" "" [] "" freshApp).1).id =
      ((createNote 42 "第二" "" [] "" idCollisionApp).1).id ∧
    (createNote 42 "第一" "" [] "" freshApp).1 ≠
      (createNote 42 "第二" "" [] "" idCollisionApp).1 ∧
    ((createNote 42 "第二" "" [] "" idCollisionApp).2).notes.map Note.title =
      ["第二", "第一"] := by
  refine ⟨rfl, fun h => ?_, rfl⟩
  have := congrArg Note.title h
  simp [createNote] at this

/-- Claim C8: `createFolder` produces a folder whose id is the
slugified name (lower-cased, each whitespace run replaced by a single
hyphen), whose count is 0, and whose record is appended with no
uniqueness check — so two different names that slugify identically
yield two distinct records sharing one id, both present in the store. -/
theorem createFolder_slug_count_no_uniqueness
    (name color n₁ n₂ c₁ c₂ : String) (a b : App)
    (hslug : slugify n₁ = slugify n₂) (hne : n₁ ≠ n₂) :
    ((createFolder name color a).1).id = slugify name ∧
    ((createFolder name color a).1).count = 0 ∧
    ((createFolder name color a).2).folders = a.folders ++ [(createFolder name color a).1] ∧
    ((createFolder n₁ c₁ b).1).id = ((createFolder n₂ c₂ (createFolder n₁ c₁ b).2).1).id ∧
    (createFolder n₁ c₁ b).1 ≠ (createFolder n₂ c₂ (createFolder n₁ c₁ b).2).1 ∧
    (createFolder n₁ c₁ b).1 ∈ ((createFolder n₂ c₂ (createFolder n₁ c₁ b).2).2).folders ∧
    (createFolder n₂ c₂ (createFolder n₁ c₁ b).2).1 ∈
      ((createFolder n₂ c₂ (createFolder n₁ c₁ b).2).2).folders := by
  refine ⟨rfl, rfl, rfl, ?_, ?_, ?_, ?_⟩
  · simpa [createFolder] using hslug
  · intro h
    exact hne (congrArg Folder.name h)
  · simp [createFolder]
  · simp [createFolder]

/-- Witness for C8's theorem: "A B" and "a  b" both slugify to "a-b". -/
theorem createFolder_slug_witness :
    ((createFolder "A B" "#fff" freshApp).1).id = slugify "A B" ∧
    ((createFolder "A B" "#fff" freshApp).1).count = 0 ∧
    ((createFolder "A B" "#fff" freshApp).2).folders =
      freshApp.folders ++ [(createFolder "A B" "#fff" freshApp).1] ∧
    ((createFolder "A B" "#111" freshApp).1).id =
      ((createFolder "a  b" "#222" (createFolder "A B" "#111" freshApp).2).1).id ∧
    (createFolder "A B" "#111" freshApp).1 ≠
      (createFolder "a  b" "#222" (createFolder "A B" "#111" freshApp).2).1 ∧
    (createFolder "A B" "#111" freshApp).1 ∈
      ((createFolder "a  b" "#222" (createFolder "A B" "#111" freshApp).2).2).folders ∧
    (createFolder "a  b" "#222" (createFolder "A B" "#111" freshApp).2).1 ∈
      ((createFolder "a  b" "#222" (createFolder "A B" "#111" freshApp).2).2).folders :=
  createFolder_slug_count_no_uniqueness "A B" "#fff" "A B" "a  b" "#111" "#222"
    freshApp freshApp (by decide) (by decide)

/-- Replacing the first id-match through `f` (which preserves ids)
turns the first id-match of the result into `f` of the original. -/
theorem find_updateFirstNote (id : String) (f : Note → Note)
    (hf : ∀ n, (f n).id = n.id) :
    ∀ (l : List Note) (n : Note), l.find? (fun m => m.id = id) = some n →
      (updateFirstNote id f l).find? (fun m => m.id = id) = some (f n) := by
  intro l
  induction l with
  | nil => intro n h; simp at h
  | cons m ms ih =>
    intro n h
    by_cases hm : m.id = id
    · rw [List.find?_cons_of_pos _ (by simpa using hm)] at h
      injection h with h
      subst h
      rw [updateFirstNote, if_pos hm, List.find?_cons_of_pos _ (by simpa [hf m] using hm)]
    · rw [List.find?_cons_of_neg _ (by simpa using hm)] at h
      rw [updateFirstNote, if_neg hm, List.find?_cons_of_neg _ (by simpa using hm)]
      exact ih n h

/-- On a present id, `updateNote` rewrites the note list by merging the
first match (the tag and folder-count bookkeeping leave notes alone). -/
theorem updateNote_notes (now : Nat) (id : String) (u : NoteUpdate) (a : App)
    (hany : a.notes.any (fun n => n.id = id)) :
    (updateNote now id u a).notes =
      updateFirstNote id (fun n => mergeNote n u now) a.notes := by
  unfold updateNote
  rw [if_pos hany]
  cases u.tags <;> rfl

/-- Claim C2 (amended): for a note present in the store, after
`updateNote(id, u)` the note's `updatedAt` is `now` (hence at least the
previous `updatedAt` under a non-decreasing clock), and its `wordCount`
equals the length of the new content whenever the payload's content is
a NON-EMPTY string; when the content key is absent — or present but the
empty string, which the source's truthiness test treats as absent — the
`wordCount` is recomputed from the note's previous `content` (not left
at the previous `wordCount` value). -/
theorem updateNote_wordCount_updatedAt (now : Nat) (id : String)
    (u : NoteUpdate) (a : App) (n : Note)
    (hfind : a.notes.find? (fun m => m.id = id) = some n)
    (hclock : n.updatedAt ≤ now) :
    ∃ m, (updateNote now id u a).notes.find? (fun x => x.id = id) = some m ∧
      (∀ c, u.content = some c → c ≠ "" → m.wordCount = c.length) ∧
      ((u.content = none ∨ u.content = some "") → m.wordCount = n.content.length) ∧
      m.updatedAt = now ∧ n.updatedAt ≤ m.updatedAt := by
  have hany : a.notes.any (fun m => m.id = id) := by
    rw [List.any_eq_true]
    have hp := List.find?_some hfind
    exact ⟨n, List.mem_of_find?_eq_some hfind, hp⟩
  refine ⟨mergeNote n u now, ?_, ?_, ?_, rfl, hclock⟩
  · rw [updateNote_notes now id u a hany]
    exact find_updateFirstNote id (fun n => mergeNote n u now) (fun _ => rfl) a.notes n hfind
  · intro c hc hcne
    simp [mergeNote, hc, hcne]
  · intro hc
    rcases hc with hc | hc <;> simp [mergeNote, hc]

/-- A store holding one note (content "ab", wordCount 2, updatedAt 5),
used by the C2 witness and counterexample. -/
def wcApp : App :=
  { freshApp with notes :=
      [{ id := "1", title := "t", content := "ab", tags := [], folder := ""
         starred := false, createdAt := 0, updatedAt := 5, wordCount := 2 }] }

/-- Witness for C2's theorem at a concrete store and payload. -/
theorem updateNote_wordCount_updatedAt_witness :
    ∃ m, (updateNote 9 "1" { content := some "xy" } wcApp).notes.find?
        (fun x => x.id = "1") = some m ∧
      (∀ c, ({ content := some "xy" } : NoteUpdate).content = some c → c ≠ "" →
        m.wordCount = c.length) ∧
      ((({ content := some "xy" } : NoteUpdate).content = none ∨
        ({ content := some "xy" } : NoteUpdate).content = some "") →
        m.wordCount = ("ab" : String).length) ∧
      m.updatedAt = 9 ∧ (5 : Nat) ≤ m.updatedAt :=
  updateNote_wordCount_updatedAt 9 "1" { content := some "xy" } wcApp
    { id := "1", title := "t", content := "ab", tags := [], folder := ""
      starred := false, createdAt := 0, updatedAt := 5, wordCount := 2 }
    (by decide) (by decide)

/-- Claim C2 counterexample: updating the note with a payload whose
content field IS PRESENT but empty (`{content: ""}`) merges the empty
content in, yet leaves `wordCount` at 2 — the length of the OLD content
— not at 0, the length of the new content, refuting the claim for every
payload containing a content field. -/
theorem updateNote_empty_content_stale_wordCount :
    (updateNote 9 "1" { content := some "" } wcApp).notes =
      [{ id := "1", title := "t", content := "", tags := [], folder := ""
         starred := false, createdAt := 0, updatedAt := 9, wordCount := 2 }] ∧
    ("" : String).length = 0 ∧ (2 : Nat) ≠ 0 := by
  refine ⟨by decide, rfl, by decide⟩

/-! ### Import / export theorems -/

/-- The notes collection after a parsed import: replaced when the
payload carries notes, untouched otherwise. -/
theorem importData_notes_eq (d : DataPayload) (a : App) :
    (importData (some d) a).notes = d.notes.getD a.notes := by
  obtain ⟨nt, fl, tk, st, tg, ed⟩ := d
  cases nt <;> cases fl <;> cases tk <;> cases st <;> cases tg <;> rfl

/-- The tasks collection after a parsed import. -/
theorem importData_tasks_eq (d : DataPayload) (a : App) :
    (importData (some d) a).tasks = d.tasks.getD a.tasks := by
  obtain ⟨nt, fl, tk, st, tg, ed⟩ := d
  cases nt <;> cases fl <;> cases tk <;> cases st <;> cases tg <;> rfl

/-- The settings record after a parsed import. -/
theorem importData_settings_eq (d : DataPayload) (a : App) :
    (importData (some d) a).settings = d.settings.getD a.settings := by
  obtain ⟨nt, fl, tk, st, tg, ed⟩ := d
  cases nt <;> cases fl <;> cases tk <;> cases st <;> cases tg <;> rfl

/-- The tags collection after a parsed import. -/
theorem importData_tags_eq (d : DataPayload) (a : App) :
    (importData (some d) a).tags = d.tags.getD a.tags := by
  obtain ⟨nt, fl, tk, st, tg, ed⟩ := d
  cases nt <;> cases fl <;> cases tk <;> cases st <;> cases tg <;> rfl

/-- The folders collection after a parsed import: the payload's folders
verbatim when present; else, when the payload carries notes, the old
folders with counts recomputed from the NEW notes; else untouched. -/
theorem importData_folders_eq (d : DataPayload) (a : App) :
    (importData (some d) a).folders =
      match d.folders with
      | some fs => fs
      | none =>
        match d.notes with
        | some ns => a.folders.map fun f =>
            { f with count := (ns.filter fun n => n.folder = f.id).length }
        | none => a.folders := by
  obtain ⟨nt, fl, tk, st, tg, ed⟩ := d
  cases nt <;> cases fl <;> cases tk <;> cases st <;> cases tg <;> rfl

/-- The folder-count invariant: every folder's count is the number of
notes filed under it. -/
def folderCountsOk (a : App) : Prop :=
  ∀ f ∈ a.folders, f.count = (a.notes.filter fun n => n.folder = f.id).length

instance (a : App) : Decidable (folderCountsOk a) := by
  unfold folderCountsOk
  infer_instance

/-- Recomputing via `updateFolderCounts` establishes the folder-count invariant. -/
theorem folderCountsOk_updateFolderCounts (a : App) :
    folderCountsOk (updateFolderCounts a) := by
  intro f hf
  simp only [updateFolderCounts, List.mem_map] at hf
  obtain ⟨g, hg, rfl⟩ := hf
  rfl

/-- Claim C3 (amended): the folder-count invariant holds after every
`createNote`, after every `updateNote` and `deleteNote` whose id is
present (an absent id is a silent no-op that recomputes nothing), and
after every import whose payload carries notes but NOT folders.  An
importing of a payload that also replaces folders installs the count
fields of the payload verbatim, unrecomputed — see the counterexample. -/
theorem folder_counts_after_note_mutations :
    (∀ now title content tags folder a,
      folderCountsOk (createNote now title content tags folder a).2) ∧
    (∀ now id u a, a.notes.any (fun n => n.id = id) →
      folderCountsOk (updateNote now id u a)) ∧
    (∀ id a, a.notes.any (fun n => n.id = id) →
      folderCountsOk (deleteNote id a)) ∧
    (∀ (d : DataPayload) a ns, d.notes = some ns → d.folders = none →
      folderCountsOk (importData (some d) a)) := by
  refine ⟨?_, ?_, ?_, ?_⟩
  · intro now title content tags folder a
    exact folderCountsOk_updateFolderCounts _
  · intro now id u a hany
    unfold updateNote
    rw [if_pos hany]
    cases u.tags <;> exact folderCountsOk_updateFolderCounts _
  · intro id a hany
    unfold deleteNote
    rw [if_pos hany]
    exact folderCountsOk_updateFolderCounts _
  · intro d a ns hns hfl
    intro f hf
    rw [importData_folders_eq, hns, hfl] at hf
    simp only [List.mem_map] at hf
    obtain ⟨g, hg, rfl⟩ := hf
    rw [importData_notes_eq, hns]
    rfl

/-- A note filed under the built-in folder `work`. -/
def workNote : Note :=
  { id := "1", title := "n", content := "", tags := [], folder := "work"
    starred := false, createdAt := 0, updatedAt := 0, wordCount := 0 }

/-- A folder record with a deliberately wrong count, as an import
payload could carry. -/
def workFolderFive : Folder :=
  { id := "work", name := "工作", color := "#3b82f6", count := 5 }

/-- An import payload carrying both notes and folders. -/
def notesAndFoldersPayload : DataPayload :=
  { notes := some [workNote], folders := some [workFolderFive] }

/-- An import payload carrying only notes. -/
def notesOnlyPayload : DataPayload := { notes := some [workNote] }

/-- Claim C3 counterexample: importing a payload that replaces the
notes AND the folders leaves folder `work` with count 5 while exactly
one note is filed under it — the invariant fails after this
note-collection mutation. -/
theorem folder_counts_import_folders_cex :
    ¬ folderCountsOk (importData (some notesAndFoldersPayload) freshApp) := by
  decide

/-- Witness for C3's theorem at concrete stores. -/
theorem folder_counts_after_note_mutations_witness :
    folderCountsOk (createNote 3 "t" "c" [] "work" freshApp).2 ∧
    folderCountsOk (updateNote 9 "1" {} wcApp) ∧
    folderCountsOk (deleteNote "1" wcApp) ∧
    folderCountsOk (importData (some notesOnlyPayload) freshApp) :=
  ⟨folder_counts_after_note_mutations.1 3 "t" "c" [] "work" freshApp,
   folder_counts_after_note_mutations.2.1 9 "1" {} wcApp (by decide),
   folder_counts_after_note_mutations.2.2.1 "1" wcApp (by decide),
   folder_counts_after_note_mutations.2.2.2 notesOnlyPayload freshApp
     [workNote] rfl rfl⟩

/-- Claim C5 (amended): a parse failure leaves all five collections
exactly as they were; on a parsed payload, each present key
wholesale-replaces its collection; absent keys leave notes, tasks,
settings and tags untouched — but the folders collection, when its key
is absent and the payload carries notes, has its counts recomputed from
the new notes (see the counterexample); folders are untouched only when
notes are absent too. -/
theorem importData_contract :
    (∀ a : App, (importData none a).notes = a.notes ∧
      (importData none a).folders = a.folders ∧
      (importData none a).tasks = a.tasks ∧
      (importData none a).settings = a.settings ∧
      (importData none a).tags = a.tags) ∧
    (∀ (d : DataPayload) (a : App),
      (∀ ns, d.notes = some ns → (importData (some d) a).notes = ns) ∧
      (∀ fs, d.folders = some fs → (importData (some d) a).folders = fs) ∧
      (∀ ts, d.tasks = some ts → (importData (some d) a).tasks = ts) ∧
      (∀ st, d.settings = some st → (importData (some d) a).settings = st) ∧
      (∀ tg, d.tags = some tg → (importData (some d) a).tags = tg) ∧
      (d.notes = none → (importData (some d) a).notes = a.notes) ∧
      (d.tasks = none → (importData (some d) a).tasks = a.tasks) ∧
      (d.settings = none → (importData (some d) a).settings = a.settings) ∧
      (d.tags = none → (importData (some d) a).tags = a.tags) ∧
      (d.folders = none → d.notes = none → (importData (some d) a).folders = a.folders) ∧
      (d.folders = none → ∀ ns, d.notes = some ns →
        (importData (some d) a).folders = a.folders.map fun f =>
          { f with count := (ns.filter fun n => n.folder = f.id).length })) := by
  constructor
  · intro a
    exact ⟨rfl, rfl, rfl, rfl, rfl⟩
  · intro d a
    refine ⟨?_, ?_, ?_, ?_, ?_, ?_, ?_, ?_, ?_, ?_, ?_⟩
    · intro ns hx
      rw [importData_notes_eq, hx]
      rfl
    · intro fs hx
      rw [importData_folders_eq, hx]
    · intro ts hx
      rw [importData_tasks_eq, hx]
      rfl
    · intro st hx
      rw [importData_settings_eq, hx]
      rfl
    · intro tg hx
      rw [importData_tags_eq, hx]
      rfl
    · intro hx
      rw [importData_notes_eq, hx]
      rfl
    · intro hx
      rw [importData_tasks_eq, hx]
      rfl
    · intro hx
      rw [importData_settings_eq, hx]
      rfl
    · intro hx
      rw [importData_tags_eq, hx]
      rfl
    · intro hfx hnx
      rw [importData_folders_eq, hfx, hnx]
    · intro hfx ns hns
      rw [importData_folders_eq, hfx, hns]

/-- Claim C5 counterexample: a payload carrying ONLY notes (the folders
key absent) still changes the folders collection — importing one note
filed under `work` bumps that folder's count from 0 to 1 — refuting
"keys absent from the payload leave their collections untouched". -/
theorem importData_notes_only_touches_folders_cex :
    notesOnlyPayload.folders = none ∧
    (importData (some notesOnlyPayload) freshApp).folders ≠ freshApp.folders := by
  exact ⟨rfl, by decide⟩

/-- Witness for C5's theorem at concrete payloads and stores. -/
theorem importData_contract_witness :
    (importData none wcApp).notes = wcApp.notes ∧
    (importData (some notesAndFoldersPayload) freshApp).notes = [workNote] ∧
    (importData (some notesAndFoldersPayload) freshApp).folders = [workFolderFive] ∧
    (importData (some notesOnlyPayload) freshApp).tasks = freshApp.tasks ∧
    (importData (some notesOnlyPayload) freshApp).folders =
      freshApp.folders.map (fun f =>
        { f with count := (([workNote].filter fun n => n.folder = f.id)).length }) := by
  obtain ⟨h0, h1⟩ := importData_contract
  obtain ⟨hn, hf, ht, hs, hg, hn0, ht0, hs0, hg0, hff, hfr⟩ :=
    h1 notesAndFoldersPayload freshApp
  obtain ⟨hn2, hf2, ht2, hs2, hg2, hn02, ht02, hs02, hg02, hff2, hfr2⟩ :=
    h1 notesOnlyPayload freshApp
  exact ⟨(h0 wcApp).1, hn [workNote] rfl, hf [workFolderFive] rfl,
    ht02 rfl, hfr2 rfl [workNote] rfl⟩

/-- Claim C6: exporting everything and importing that exact payload is
the identity on the five collections — replacing the notes does trigger
a folder-count recompute, but the folders key of the payload then
overwrites the folders with the original records. -/
theorem export_import_roundtrip (now : Nat) (a : App) :
    (importData (some (exportData "all" now a)) a).notes = a.notes ∧
    (importData (some (exportData "all" now a)) a).folders = a.folders ∧
    (importData (some (exportData "all" now a)) a).tasks = a.tasks ∧
    (importData (some (exportData "all" now a)) a).settings = a.settings ∧
    (importData (some (exportData "all" now a)) a).tags = a.tags := by
  have he : exportData "all" now a =
      { notes := some a.notes, folders := some a.folders, tasks := some a.tasks
        settings := some a.settings, tags := some a.tags, exportDate := some now } := by
    unfold exportData
    rw [if_pos rfl]
  rw [he, importData_notes_eq, importData_folders_eq, importData_tasks_eq,
    importData_settings_eq, importData_tags_eq]
  simp

/-! ### getPopularTags frame effect -/

/-- The tags list is in descending count order. -/
def tagsSortedDesc (l : List Tag) : Prop :=
  l.Pairwise fun a b => b.count ≤ a.count

instance (l : List Tag) : Decidable (tagsSortedDesc l) := by
  unfold tagsSortedDesc
  infer_instance

/-- Claim C10: `getPopularTags` is not a pure query — the store's tags
collection afterwards is a permutation of the old one (every tag's name
and count preserved) in descending count order, and whenever the old
collection was NOT already in descending count order the stored order
has changed. -/
theorem getPopularTags_sorts_in_place (limit : Nat) (a : App) :
    ((getPopularTags limit a).2).tags.Perm a.tags ∧
    tagsSortedDesc ((getPopularTags limit a).2).tags ∧
    (¬ tagsSortedDesc a.tags → ((getPopularTags limit a).2).tags ≠ a.tags) := by
  have htags : ((getPopularTags limit a).2).tags = a.tags.mergeSort tagLe := rfl
  have hperm : (a.tags.mergeSort tagLe).Perm a.tags := List.mergeSort_perm a.tags tagLe
  have hsorted : tagsSortedDesc (a.tags.mergeSort tagLe) := by
    have h : (a.tags.mergeSort tagLe).Pairwise fun x y => tagLe x y = true :=
      List.sorted_mergeSort
        (fun x y z hxy hyz => by
          simp only [tagLe, decide_eq_true_eq] at *
          omega)
        (fun x y => by
          simp only [tagLe]
          rcases Nat.le_total y.count x.count with h | h <;> simp [h])
        a.tags
    unfold tagsSortedDesc
    exact h.imp fun hb => by simpa [tagLe] using hb
  refine ⟨htags ▸ hperm, htags ▸ hsorted, ?_⟩
  intro hns heq
  rw [htags] at heq
  rw [← heq] at hns
  exact hns hsorted

/-- A store whose tags are not in descending count order. -/
def unsortedTagsApp : App :=
  { freshApp with tags := [{ name := "a", count := 1 }, { name := "b", count := 2 }] }

/-- Witness for C10's theorem at a concrete unsorted store. -/
theorem getPopularTags_sorts_in_place_witness :
    ((getPopularTags 10 unsortedTagsApp).2).tags.Perm unsortedTagsApp.tags ∧
    tagsSortedDesc ((getPopularTags 10 unsortedTagsApp).2).tags ∧
    ((getPopularTags 10 unsortedTagsApp).2).tags ≠ unsortedTagsApp.tags := by
  obtain ⟨h1, h2, h3⟩ := getPopularTags_sorts_in_place 10 unsortedTagsApp
  exact ⟨h1, h2, h3 (by decide)⟩
